import Mathlib

/-!
Shallow embedding of the run-coordination subsystem of the fabric-data-portal
repository: the metadata store (src/services/db.py), the run lock
(src/services/locking.py), job polling and the external status map
(src/services/fabric_pipelines.py), and the page-level coordinator handlers
(src/pages/1_Import.py, src/pages/2_Monitor.py, src/pages/4_Archive.py).

Wall-clock timestamps and generated uuids are modelled by a logical clock in
the store state: each draw of the db._now helper or of a fresh uuid reads the
current clock value and advances it, so successive draws are distinct.  The
fields started_at_sets and finished_at_sets of a run row are instrumentation:
they count how many times a SET started_at, respectively SET finished_at,
clause of update_run_status has been applied to that row, so that the
"written exactly once" properties can be stated directly.

Fallible external effects (the HTTP layer and individual database statements
that the pages wrap in try/except) are modelled by explicit oracles: an
Except value for an HTTP request ond a record of Option String fields, where
none means the statement succeeds and some msg means it raises an exception
carrying message msg.
-/

/-- Row of the pipeline_runs table (db.py: insert_pipeline_run,
update_run_status). -/
structure RunRow where
  run_id : Nat
  created_at : Nat
  started_at : Option Nat
  finished_at : Option Nat
  triggered_by : String
  input_file : String
  workspace_id : String
  pipeline_item_id : String
  fabric_job_location_url : String
  status : String
  error_message : Option String
  fabric_job_id : Option String
  kpis : Option String
  app_version : Option String
  started_at_sets : Nat
  finished_at_sets : Nat
  deriving DecidableEq, Repr

/-- Row of the run_events table (db.py: append_event). -/
structure EventRow where
  id : Nat
  run_id : Nat
  event_time : Nat
  event_type : String
  message : String
  deriving DecidableEq, Repr

/-- Row of the run_restores table (db.py: insert_restore). -/
structure RestoreRow where
  id : Nat
  restored_at : Nat
  restored_by : String
  source_run_id : Nat
  target_run_id : Option Nat
  deriving DecidableEq, Repr

/-- The singleton run_lock row (locking.py); run_id = none means the lock is
free. -/
structure LockRow where
  run_id : Option Nat
  locked_at : Option Nat
  locked_by : Option String
  deriving DecidableEq, Repr

/-- The metadata store plus the logical clock used for timestamps and
generated ids. -/
structure DBState where
  runs : List RunRow
  events : List EventRow
  restores : List RestoreRow
  lock : LockRow
  clock : Nat
  deriving DecidableEq, Repr

/-- db.insert_pipeline_run (db.py lines 77-101): INSERT a new run row; the
created_at column is db._now(). -/
def insert_pipeline_run (s : DBState) (run_id : Nat)
    (triggered_by input_file workspace_id pipeline_item_id
     fabric_job_location_url status : String)
    (app_version : Option String) : DBState :=
  { s with
    clock := s.clock + 1,
    runs := s.runs ++ [{
      run_id := run_id,
      created_at := s.clock,
      started_at := none,
      finished_at := none,
      triggered_by := triggered_by,
      input_file := input_file,
      workspace_id := workspace_id,
      pipeline_item_id := pipeline_item_id,
      fabric_job_location_url := fabric_job_location_url,
      status := status,
      error_message := none,
      fabric_job_id := none,
      kpis := none,
      app_version := app_version,
      started_at_sets := 0,
      finished_at_sets := 0 }] }

/-- db.update_run_status (db.py lines 104-138): UPDATE the run row, always
SET status; additionally SET started_at = _now() whenever the written status
is RUNNING, SET finished_at = _now() whenever the written status is SUCCEEDED
or FAILED, and SET error_message / fabric_job_id / kpis only when the
corresponding argument was supplied.  The SET clauses for the timestamps are
unconditional on the row contents: they do not test whether the column is
already filled. -/
def update_run_status (s : DBState) (run_id : Nat) (status : String)
    (error_message : Option String) (fabric_job_id : Option String)
    (kpis : Option String) : DBState :=
  let started_val : Option Nat :=
    if status = "RUNNING" then some s.clock else none
  let c1 : Nat := if status = "RUNNING" then s.clock + 1 else s.clock
  let finished_val : Option Nat :=
    if status = "SUCCEEDED" ∨ status = "FAILED" then some c1 else none
  let c2 : Nat :=
    if status = "SUCCEEDED" ∨ status = "FAILED" then c1 + 1 else c1
  { s with
    clock := c2,
    runs := s.runs.map (fun r =>
      if r.run_id = run_id then
        { r with
          status := status,
          started_at :=
            match started_val with
            | some t => some t
            | none => r.started_at,
          finished_at :=
            match finished_val with
            | some t => some t
            | none => r.finished_at,
          error_message :=
            match error_message with
            | some m => some m
            | none => r.error_message,
          fabric_job_id :=
            match fabric_job_id with
            | some j => some j
            | none => r.fabric_job_id,
          kpis :=
            match kpis with
            | some k => some k
            | none => r.kpis,
          started_at_sets :=
            r.started_at_sets + (if started_val.isSome then 1 else 0),
          finished_at_sets :=
            r.finished_at_sets + (if finished_val.isSome then 1 else 0) }
      else r) }

/-- db.append_event (db.py lines 184-196): INSERT an event row with a fresh
uuid and event_time = _now(). -/
def append_event (s : DBState) (run_id : Nat)
    (event_type message : String) : DBState :=
  { s with
    clock := s.clock + 1,
    events := s.events ++ [{
      id := s.clock,
      run_id := run_id,
      event_time := s.clock,
      event_type := event_type,
      message := message }] }

/-- db.insert_restore (db.py lines 241-255): draw a fresh restore id, INSERT
the restore row, and return the id. -/
def insert_restore (s : DBState) (restored_by : String)
    (source_run_id : Nat) (target_run_id : Option Nat) : Nat × DBState :=
  (s.clock,
   { s with
     clock := s.clock + 1,
     restores := s.restores ++ [{
       id := s.clock,
       restored_at := s.clock,
       restored_by := restored_by,
       source_run_id := source_run_id,
       target_run_id := target_run_id }] })

/-- locking.is_locked (locking.py lines 19-40): the lock is held iff the
singleton row has a non-null run_id. -/
def is_locked (s : DBState) : Bool × Option LockRow :=
  match s.lock.run_id with
  | some _ => (true, some s.lock)
  | none => (false, none)

/-- locking.acquire_lock (locking.py lines 43-72): a single conditional
UPDATE run_lock SET run_id, locked_at, locked_by WHERE run_id IS NULL;
returns rowcount = 1, i.e. whether the row was free before the call. -/
def acquire_lock (s : DBState) (run_id : Nat) (locked_by : String) :
    Bool × DBState :=
  match s.lock.run_id with
  | none =>
    (true,
     { s with
       clock := s.clock + 1,
       lock := {
         run_id := some run_id,
         locked_at := some s.clock,
         locked_by := some locked_by } })
  | some _ => (false, s)

/-- locking.release_lock (locking.py lines 75-103): a single conditional
UPDATE run_lock SET run_id = NULL, ... WHERE run_id = the given id; returns
rowcount = 1, i.e. whether this run actually held the lock. -/
def release_lock (s : DBState) (run_id : Nat) : Bool × DBState :=
  if s.lock.run_id = some run_id then
    (true, { s with lock := { run_id := none, locked_at := none, locked_by := none } })
  else
    (false, s)

/-- locking.force_release_lock (locking.py lines 106-130): unconditional
clear of the lock row. -/
def force_release_lock (s : DBState) : Bool × DBState :=
  (true, { s with lock := { run_id := none, locked_at := none, locked_by := none } })

/-- Body of an HTTP response as seen through resp.json(): invalid means the
json call raises, parsed carries the optional status and id fields of the
decoded dict. -/
inductive JsonBody where
  | invalid : JsonBody
  | parsed (status : Option String) (id : Option String) : JsonBody
  deriving DecidableEq, Repr

/-- An HTTP response from the polling endpoint. -/
structure HttpResp where
  status_code : Nat
  body : JsonBody
  text : String
  deriving DecidableEq, Repr

/-- Exceptions that fabric_pipelines.poll_job_status can raise. -/
inductive PollExn where
  | valueError : PollExn
  | network (msg : String) : PollExn
  | jsonError (msg : String) : PollExn
  deriving DecidableEq, Repr

/-- The message text of a polling exception, as interpolated by the page. -/
def pollExnMessage : PollExn → String
  | .valueError => "No location URL provided for polling."
  | .network m => m
  | .jsonError m => m

/-- The dict returned by fabric_pipelines.poll_job_status; raw_id is the id
field of the raw body, which the page reads for fabric_job_id. -/
structure PollResult where
  http_status : Nat
  status : String
  raw_id : Option String
  error : Option String
  deriving DecidableEq, Repr

/-- fabric_pipelines.poll_job_status (fabric_pipelines.py lines 73-111).
The resp argument is the outcome of the single requests.get call: an error
value models a raised network exception.  On HTTP 200 the body is decoded
(raising on invalid json, default status Unknown); on 202 the status
defaults to InProgress and an invalid body is swallowed; on every other
status code the function returns normally with the sentinel status string
PollError and the response text stored under the error key. -/
def poll_job_status (location_url : String)
    (resp : Except String HttpResp) : Except PollExn PollResult :=
  if location_url = "" then
    Except.error PollExn.valueError
  else
    match resp with
    | .error m => Except.error (PollExn.network m)
    | .ok r =>
      if r.status_code = 200 then
        match r.body with
        | .invalid => Except.error (PollExn.jsonError r.text)
        | .parsed st id =>
          Except.ok {
            http_status := 200,
            status := st.getD "Unknown",
            raw_id := id,
            error := none }
      else if r.status_code = 202 then
        match r.body with
        | .invalid =>
          Except.ok {
            http_status := 202,
            status := "InProgress",
            raw_id := none,
            error := none }
        | .parsed st id =>
          Except.ok {
            http_status := 202,
            status := st.getD "InProgress",
            raw_id := id,
            error := none }
      else
        Except.ok {
          http_status := r.status_code,
          status := "PollError",
          raw_id := none,
          error := some (r.text.take 500) }

/-- fabric_pipelines.map_fabric_status (fabric_pipelines.py lines 114-124):
dictionary lookup with default RUNNING. -/
def map_fabric_status (fabric_status : String) : String :=
  if fabric_status = "NotStarted" then "QUEUED"
  else if fabric_status = "InProgress" then "RUNNING"
  else if fabric_status = "Completed" then "SUCCEEDED"
  else if fabric_status = "Failed" then "FAILED"
  else if fabric_status = "Cancelled" then "FAILED"
  else if fabric_status = "Deduped" then "FAILED"
  else "RUNNING"

/-- Messages shown to the caller through st.error / st.warning / st.info /
st.success during one handler invocation. -/
structure Outcome where
  errors : List String
  warnings : List String
  infos : List String
  successes : List String
  deriving DecidableEq, Repr

/-- Fault oracle for the database statements of the Monitor poll handler;
none means the statement succeeds, some msg means it raises with message
msg. -/
structure AdvanceFaults where
  status_write : Option String
  status_event : Option String
  kpi_write : Option String
  lock_release : Option String
  release_event : Option String
  error_event : Option String
  deriving DecidableEq, Repr

/-- The no-fault oracle: every database statement succeeds. -/
def noFaults : AdvanceFaults :=
  { status_write := none, status_event := none, kpi_write := none,
    lock_release := none, release_event := none, error_event := none }

/-- Lines 101-116 of 2_Monitor.py: the try block that persists the status
transition and appends the STATUS_CHANGE event.  If the UPDATE raises, the
event INSERT is not attempted; either failure is reported as the same
warning, and a failure does not abort the handler. -/
def advance_status_step (s : DBState) (run_id : Nat)
    (old_status new_status fabric_status : String) (job_id : Option String)
    (faults : AdvanceFaults) : List String × DBState :=
  match faults.status_write with
  | some m => (["Status changed but failed to update database: " ++ m], s)
  | none =>
    let sa := update_run_status s run_id new_status none job_id none
    match faults.status_event with
    | some m => (["Status changed but failed to update database: " ++ m], sa)
    | none =>
      ([], append_event sa run_id "STATUS_CHANGE"
        ("Status changed: " ++ old_status ++ " -> " ++ new_status ++
         " (Fabric: " ++ fabric_status ++ ")"))

/-- Lines 118-131 of 2_Monitor.py: on SUCCEEDED, best-effort KPI fetch
(get_run_kpis with fallback to get_current_kpis, combined here into one
oracle) and persistence via a second update_run_status carrying the same
SUCCEEDED status; every exception in the block is swallowed. -/
def advance_kpi_step (s : DBState) (run_id : Nat) (new_status : String)
    (faults : AdvanceFaults)
    (kpi_fetch : Except String (Option String)) : DBState :=
  if new_status = "SUCCEEDED" then
    match kpi_fetch with
    | .error _ => s
    | .ok none => s
    | .ok (some k) =>
      match faults.kpi_write with
      | some _ => s
      | none => update_run_status s run_id new_status none none (some k)
  else s

/-- Lines 133-143 of 2_Monitor.py: on a terminal status, release the run
lock and append the lock-released LOG event; an exception from either call
is reported as a warning. -/
def advance_release_step (s : DBState) (run_id : Nat) (new_status : String)
    (faults : AdvanceFaults) : List String × DBState :=
  if new_status = "SUCCEEDED" ∨ new_status = "FAILED" then
    match faults.lock_release with
    | some m => (["Failed to release lock: " ++ m], s)
    | none =>
      let rs := release_lock s run_id
      match faults.release_event with
      | some m => (["Failed to release lock: " ++ m], rs.2)
      | none =>
        ([], append_event rs.2 run_id "LOG"
          ("Pipeline lock released. Final status: " ++ new_status))
  else ([], s)

/-- Lines 98-151 of 2_Monitor.py: the poll-succeeded part of the Refresh
Status handler.  Map the external status; if it differs from the stored
status run the persist / KPI / release steps, otherwise perform no store
write and report unchanged. -/
def advance_on_poll (s : DBState) (run_id : Nat) (status : String)
    (pr : PollResult) (faults : AdvanceFaults)
    (kpi_fetch : Except String (Option String)) : Outcome × DBState :=
  let new_status := map_fabric_status pr.status
  if new_status ≠ status then
    let p1 := advance_status_step s run_id status new_status pr.status
      pr.raw_id faults
    let s2 := advance_kpi_step p1.2 run_id new_status faults kpi_fetch
    let p3 := advance_release_step s2 run_id new_status faults
    ({ errors := [],
       warnings := p1.1 ++ p3.1,
       infos := [],
       successes := ["Status updated: " ++ status ++ " -> " ++ new_status] },
     p3.2)
  else
    ({ errors := [],
       warnings := [],
       infos := ["Status unchanged: " ++ status ++ " (Fabric: " ++ pr.status ++ ")"],
       successes := [] }, s)

/-- Lines 92-162 of 2_Monitor.py: the whole Refresh Status (Advance) handler
for the resolved active run.  With no location URL it only reports an error;
a raised polling exception is reported as an error and logged as a
best-effort ERROR event, with no status write. -/
def advance_run (s : DBState) (run_id : Nat) (status location_url : String)
    (resp : Except String HttpResp) (faults : AdvanceFaults)
    (kpi_fetch : Except String (Option String)) : Outcome × DBState :=
  if location_url = "" then
    ({ errors := ["No Fabric job location URL available for polling."],
       warnings := [], infos := [], successes := [] }, s)
  else
    match poll_job_status location_url resp with
    | .error exn =>
      let s1 :=
        match faults.error_event with
        | some _ => s
        | none =>
          append_event s run_id "ERROR" ("Poll error: " ++ pollExnMessage exn)
      ({ errors := ["Polling failed: " ++ pollExnMessage exn],
         warnings := [], infos := [], successes := [] }, s1)
    | .ok pr => advance_on_poll s run_id status pr faults kpi_fetch

/-- Result of fabric_pipelines.trigger_pipeline when the POST is accepted. -/
structure SubmitOk where
  location_url : String
  deriving DecidableEq, Repr

/-- Fault oracle for the database statements of the Import run handler. -/
structure AdmitFaults where
  insert_run : Option String
  submit_event : Option String
  lock_release : Option String
  deriving DecidableEq, Repr

/-- The no-fault oracle for the Import handler. -/
def noAdmitFaults : AdmitFaults :=
  { insert_run := none, submit_event := none, lock_release := none }

/-- Lines 215-275 of 1_Import.py: the Run Pipeline (Admit) handler.  Acquire
the lock for the fresh run id; on contention report an error and stop.  Then
submit the job: on submission failure release the lock (best-effort, a raise
from the release is swallowed) and report the error; on success insert the
run row and the submitted event inside one try whose failure is reported as
a non-fatal warning. -/
def admit_run (s : DBState) (run_id : Nat)
    (user_name selected_name workspace_id pipeline_item_id : String)
    (app_version : Option String) (submit : Except String SubmitOk)
    (faults : AdmitFaults) : Outcome × DBState :=
  let acq := acquire_lock s run_id user_name
  if acq.1 = false then
    ({ errors := ["Could not acquire pipeline lock. Another run may have started. Please refresh."],
       warnings := [], infos := [], successes := [] }, acq.2)
  else
    match submit with
    | .error e =>
      let s1 :=
        match faults.lock_release with
        | some _ => acq.2
        | none => (release_lock acq.2 run_id).2
      ({ errors := ["Pipeline trigger failed: " ++ e],
         warnings := [], infos := [], successes := [] }, s1)
    | .ok r =>
      let logged : List String × DBState :=
        match faults.insert_run with
        | some m =>
          (["Pipeline was triggered but failed to log to database: " ++ m ++
            ". The pipeline is running - check Monitor page."], acq.2)
        | none =>
          let sa := insert_pipeline_run acq.2 run_id user_name selected_name
            workspace_id pipeline_item_id r.location_url "SUBMITTED" app_version
          match faults.submit_event with
          | some m =>
            (["Pipeline was triggered but failed to log to database: " ++ m ++
              ". The pipeline is running - check Monitor page."], sa)
          | none =>
            ([], append_event sa run_id "STATUS_CHANGE"
              ("Pipeline submitted by " ++ user_name ++ " for file " ++ selected_name))
      ({ errors := [],
         warnings := logged.1,
         infos := [],
         successes := ["Pipeline triggered successfully. Run ID: " ++ toString run_id] },
       logged.2)

/-- Fault oracle for the database statements of the Archive restore
handler. -/
structure RestoreFaults where
  insert_with_target : Option String
  log_event : Option String
  insert_fallback : Option String
  warning_event : Option String
  deriving DecidableEq, Repr

/-- The no-fault oracle for the restore handler. -/
def noRestoreFaults : RestoreFaults :=
  { insert_with_target := none, log_event := none,
    insert_fallback := none, warning_event := none }

/-- Lines 187-213 of 4_Archive.py: the main try block of the restore button
handler.  Trigger the restore pipeline, insert the restore record carrying
the target run id, append the LOG event on the source run.  The first raise
anywhere in the block aborts it, yielding the exception message and the
store state reached so far. -/
def restore_attempt (s : DBState) (source_run_id : Nat) (user_name : String)
    (restore_run_id : Nat) (submit : Except String SubmitOk)
    (faults : RestoreFaults) : Except (String × DBState) (Nat × DBState) :=
  match submit with
  | .error e => Except.error (e, s)
  | .ok _r =>
    match faults.insert_with_target with
    | some m => Except.error (m, s)
    | none =>
      let ins := insert_restore s user_name source_run_id (some restore_run_id)
      match faults.log_event with
      | some m => Except.error (m, ins.2)
      | none =>
        Except.ok (ins.1,
          append_event ins.2 source_run_id "LOG"
            ("Restore triggered by " ++ user_name ++ ". Restore ID: " ++
             toString ins.1))

/-- Lines 223-236 of 4_Archive.py: the except branch of the restore handler.
Best-effort: insert a second restore record with no target run id, then
append a WARNING event whose message blames a pipeline trigger failure on
the caught exception; a raise from either statement is swallowed (and aborts
the rest of the block). -/
def restore_fallback (s : DBState) (source_run_id : Nat) (user_name : String)
    (e : String) (faults : RestoreFaults) : DBState :=
  match faults.insert_fallback with
  | some _ => s
  | none =>
    let ins := insert_restore s user_name source_run_id none
    match faults.warning_event with
    | some _ => ins.2
    | none =>
      append_event ins.2 source_run_id "WARNING"
        ("Restore requested by " ++ user_name ++
         " but pipeline trigger failed: " ++ e ++ ". Restore ID: " ++
         toString ins.1)

/-- Lines 182-236 of 4_Archive.py: the whole restore button handler for a
selected source run. -/
def restore_run (s : DBState) (source_run_id : Nat) (user_name : String)
    (restore_run_id : Nat) (submit : Except String SubmitOk)
    (faults : RestoreFaults) : Outcome × DBState :=
  match restore_attempt s source_run_id user_name restore_run_id submit faults with
  | .ok (restore_id, s1) =>
    ({ errors := [],
       warnings := [],
       infos := [],
       successes := ["Restore initiated. Restore audit ID: " ++ toString restore_id] },
     s1)
  | .error (e, s1) =>
    ({ errors := ["Restore failed: " ++ e],
       warnings := [], infos := [], successes := [] },
     restore_fallback s1 source_run_id user_name e faults)

@[simp] theorem append_event_lock (s : DBState) (r : Nat) (t m : String) :
    (append_event s r t m).lock = s.lock := rfl

@[simp] theorem append_event_runs (s : DBState) (r : Nat) (t m : String) :
    (append_event s r t m).runs = s.runs := rfl

@[simp] theorem append_event_restores (s : DBState) (r : Nat) (t m : String) :
    (append_event s r t m).restores = s.restores := rfl

@[simp] theorem append_event_events (s : DBState) (r : Nat) (t m : String) :
    (append_event s r t m).events =
      s.events ++ [{ id := s.clock, run_id := r, event_time := s.clock,
                     event_type := t, message := m }] := rfl

@[simp] theorem update_run_status_lock (s : DBState) (rid : Nat) (st : String)
    (e j k : Option String) :
    (update_run_status s rid st e j k).lock = s.lock := rfl

@[simp] theorem update_run_status_events (s : DBState) (rid : Nat) (st : String)
    (e j k : Option String) :
    (update_run_status s rid st e j k).events = s.events := rfl

@[simp] theorem update_run_status_restores (s : DBState) (rid : Nat) (st : String)
    (e j k : Option String) :
    (update_run_status s rid st e j k).restores = s.restores := rfl

@[simp] theorem insert_pipeline_run_lock (s : DBState) (rid : Nat)
    (a b c d e f : String) (v : Option String) :
    (insert_pipeline_run s rid a b c d e f v).lock = s.lock := rfl

@[simp] theorem insert_pipeline_run_events (s : DBState) (rid : Nat)
    (a b c d e f : String) (v : Option String) :
    (insert_pipeline_run s rid a b c d e f v).events = s.events := rfl

@[simp] theorem insert_restore_runs (s : DBState) (u : String) (src : Nat)
    (t : Option Nat) :
    (insert_restore s u src t).2.runs = s.runs := rfl

@[simp] theorem insert_restore_events (s : DBState) (u : String) (src : Nat)
    (t : Option Nat) :
    (insert_restore s u src t).2.events = s.events := rfl

@[simp] theorem insert_restore_lock (s : DBState) (u : String) (src : Nat)
    (t : Option Nat) :
    (insert_restore s u src t).2.lock = s.lock := rfl

@[simp] theorem insert_restore_restores (s : DBState) (u : String) (src : Nat)
    (t : Option Nat) :
    (insert_restore s u src t).2.restores =
      s.restores ++ [{ id := s.clock, restored_at := s.clock,
                       restored_by := u, source_run_id := src,
                       target_run_id := t }] := rfl

@[simp] theorem insert_restore_fst (s : DBState) (u : String) (src : Nat)
    (t : Option Nat) :
    (insert_restore s u src t).1 = s.clock := rfl

@[simp] theorem insert_restore_clock (s : DBState) (u : String) (src : Nat)
    (t : Option Nat) :
    (insert_restore s u src t).2.clock = s.clock + 1 := rfl

theorem release_lock_runs (s : DBState) (rid : Nat) :
    (release_lock s rid).2.runs = s.runs := by
  unfold release_lock
  split <;> rfl

theorem release_lock_events (s : DBState) (rid : Nat) :
    (release_lock s rid).2.events = s.events := by
  unfold release_lock
  split <;> rfl

theorem release_lock_restores (s : DBState) (rid : Nat) :
    (release_lock s rid).2.restores = s.restores := by
  unfold release_lock
  split <;> rfl

/-- After release_lock for a given run id, that run id no longer holds the
lock: either the row matched and was cleared, or it did not hold it to begin
with. -/
theorem release_lock_not_holder (s : DBState) (rid : Nat) :
    (release_lock s rid).2.lock.run_id ≠ some rid := by
  unfold release_lock
  split
  · intro hc
    simp at hc
  · next h =>
    exact h

theorem getLast?_append_singleton {α : Type} (l : List α) (a : α) :
    (l ++ [a]).getLast? = some a := by
  induction l with
  | nil => rfl
  | cons x xs ih =>
    rw [List.cons_append, List.getLast?_cons, ih]
    rfl

/-- Claim C3: acquire_lock(run_id, holder) returns true iff the singleton
lock row's holder was null before the call; in that case the holder becomes
the given run id via the single conditional update; if the row was already
held the call returns false and the store state is unchanged. -/
theorem c3_acquire_lock_cas (s : DBState) (rid : Nat) (who : String) :
    ((acquire_lock s rid who).1 = true ↔ s.lock.run_id = none) ∧
    (s.lock.run_id = none →
      (acquire_lock s rid who).2.lock.run_id = some rid) ∧
    (s.lock.run_id ≠ none →
      (acquire_lock s rid who).1 = false ∧ (acquire_lock s rid who).2 = s) := by
  rcases h : s.lock.run_id with _ | v <;> simp [acquire_lock, h]

/-- A state whose lock row is free. -/
def lockFreeState : DBState :=
  { runs := [], events := [], restores := [],
    lock := { run_id := none, locked_at := none, locked_by := none },
    clock := 0 }

/-- Witness for C3 at a concrete free lock: the acquisition installs run id
5 as the holder. -/
theorem c3_acquire_lock_cas_witness :
    (acquire_lock lockFreeState 5 "alice").2.lock.run_id = some 5 :=
  (c3_acquire_lock_cas lockFreeState 5 "alice").2.1 rfl

/-- Claim C6: release_lock(run_id) is idempotent: when the lock is free or
held by a different run id it returns false and changes nothing; it clears
the holder exactly when the holder currently equals the given run id, and
even then it touches no other state. -/
theorem c6_release_lock_idempotent (s : DBState) (rid : Nat) :
    (s.lock.run_id ≠ some rid →
      (release_lock s rid).1 = false ∧ (release_lock s rid).2 = s) ∧
    (s.lock.run_id = some rid →
      (release_lock s rid).1 = true ∧
      (release_lock s rid).2.lock.run_id = none ∧
      (release_lock s rid).2.runs = s.runs ∧
      (release_lock s rid).2.events = s.events ∧
      (release_lock s rid).2.restores = s.restores ∧
      (release_lock s rid).2.clock = s.clock) := by
  constructor
  · intro h
    simp [release_lock, h]
  · intro h
    simp [release_lock, h]

/-- A state whose lock is held by run id 9. -/
def lockHeldBy9State : DBState :=
  { runs := [], events := [], restores := [],
    lock := { run_id := some 9, locked_at := some 0, locked_by := some "bob" },
    clock := 3 }

/-- Witness for C6 at a concrete lock held by a different run id: releasing
for run id 5 returns false and mutates nothing. -/
theorem c6_release_lock_idempotent_witness :
    (release_lock lockHeldBy9State 5).1 = false ∧
    (release_lock lockHeldBy9State 5).2 = lockHeldBy9State :=
  (c6_release_lock_idempotent lockHeldBy9State 5).1 (by decide)

/-- Claim C7: the external-to-internal status map realises exactly the
transition table: NotStarted to QUEUED, InProgress to RUNNING, Completed to
SUCCEEDED, Failed / Cancelled / Deduped to FAILED, and every other string to
RUNNING. -/
theorem c7_map_fabric_status_table :
    map_fabric_status "NotStarted" = "QUEUED" ∧
    map_fabric_status "InProgress" = "RUNNING" ∧
    map_fabric_status "Completed" = "SUCCEEDED" ∧
    map_fabric_status "Failed" = "FAILED" ∧
    map_fabric_status "Cancelled" = "FAILED" ∧
    map_fabric_status "Deduped" = "FAILED" ∧
    (∀ other : String, other ≠ "NotStarted" → other ≠ "InProgress" →
      other ≠ "Completed" → other ≠ "Failed" → other ≠ "Cancelled" →
      other ≠ "Deduped" → map_fabric_status other = "RUNNING") := by
  refine ⟨rfl, rfl, rfl, rfl, rfl, rfl, ?_⟩
  intro other h1 h2 h3 h4 h5 h6
  simp [map_fabric_status, h1, h2, h3, h4, h5, h6]

/-- Witness for C7 at a concrete unrecognized status string. -/
theorem c7_map_fabric_status_table_witness :
    map_fabric_status "Unknown" = "RUNNING" :=
  c7_map_fabric_status_table.2.2.2.2.2.2 "Unknown" (by decide) (by decide)
    (by decide) (by decide) (by decide) (by decide)

/-- The stored run row for the C1 scenario: an active SUBMITTED run. -/
def c1_run : RunRow :=
  { run_id := 7, created_at := 0, started_at := none, finished_at := none,
    triggered_by := "alice", input_file := "orders.csv",
    workspace_id := "ws1", pipeline_item_id := "pl1",
    fabric_job_location_url := "https://fabric/poll/7",
    status := "SUBMITTED", error_message := none, fabric_job_id := none,
    kpis := none, app_version := none,
    started_at_sets := 0, finished_at_sets := 0 }

/-- Store state for the C1 scenario: the run is active and holds the lock. -/
def c1_state : DBState :=
  { runs := [c1_run], events := [], restores := [],
    lock := { run_id := some 7, locked_at := some 0, locked_by := some "alice" },
    clock := 10 }

/-- The C1 poll: the single HTTP request returns status code 404, body not
decodable, with no database faults. -/
def c1_result : Outcome × DBState :=
  advance_run c1_state 7 "SUBMITTED" "https://fabric/poll/7"
    (Except.ok { status_code := 404, body := JsonBody.invalid, text := "Not Found" })
    noFaults (Except.ok none)

/-- Claim C1, code-behaviour evidence: a non-2xx (and non-202) polling
response is not treated as an error.  poll_job_status returns normally with
the sentinel status string PollError, map_fabric_status sends that string to
RUNNING through its default arm, and the handler persists a SUBMITTED to
RUNNING transition with a STATUS_CHANGE event, reports success, reports no
error and logs no ERROR event - contradicting the claim that any polling
error leaves the stored status unchanged and is logged as an error event. -/
theorem c1_poll_http_error_persists_transition :
    c1_result.2.runs.map RunRow.status = ["RUNNING"] ∧
    c1_result.2.events.map EventRow.event_type = ["STATUS_CHANGE"] ∧
    c1_result.1.errors = [] ∧
    c1_result.1.successes = ["Status updated: SUBMITTED -> RUNNING"] := by
  decide

/-- The stored run row for the C2 scenario: an active RUNNING run whose
started_at is already set and finished_at is still null. -/
def c2_run : RunRow :=
  { run_id := 7, created_at := 0, started_at := some 1, finished_at := none,
    triggered_by := "alice", input_file := "orders.csv",
    workspace_id := "ws1", pipeline_item_id := "pl1",
    fabric_job_location_url := "https://fabric/poll/7",
    status := "RUNNING", error_message := none, fabric_job_id := none,
    kpis := none, app_version := none,
    started_at_sets := 1, finished_at_sets := 0 }

/-- Store state for the C2 scenario. -/
def c2_state : DBState :=
  { runs := [c2_run], events := [], restores := [],
    lock := { run_id := some 7, locked_at := some 0, locked_by := some "alice" },
    clock := 10 }

/-- The C2 poll: the external job reports Completed, the KPI artifact is
readable, and no database statement faults. -/
def c2_result : Outcome × DBState :=
  advance_run c2_state 7 "RUNNING" "https://fabric/poll/7"
    (Except.ok { status_code := 200,
                 body := JsonBody.parsed (some "Completed") (some "job-9"),
                 text := "" })
    noFaults (Except.ok (some "kpi-blob"))

/-- Claim C2, code-behaviour evidence: in the ordinary SUCCEEDED-with-KPIs
poll cycle, the SET finished_at clause of update_run_status is applied twice
to the run row: once by the status-transition write (value 10 on the model
clock) and once more by the KPI-persistence write, which passes status
SUCCEEDED again (overwriting finished_at with the later value 12) -
contradicting the claim that finished_at is written exactly once. -/
theorem c2_kpi_write_sets_finished_at_twice :
    c2_result.2.runs.map RunRow.finished_at_sets = [2] ∧
    c2_result.2.runs.map RunRow.finished_at = [some 12] ∧
    c2_result.2.runs.map RunRow.status = ["SUCCEEDED"] ∧
    c2_result.2.runs.map RunRow.kpis = [some "kpi-blob"] := by
  decide

/-- Branch reduction: when the mapped status differs from the stored one,
the poll handler runs the persist / KPI / release pipeline. -/
theorem advance_on_poll_changed (s : DBState) (rid : Nat) (status : String)
    (pr : PollResult) (faults : AdvanceFaults)
    (kpi_fetch : Except String (Option String))
    (hne : map_fabric_status pr.status ≠ status) :
    advance_on_poll s rid status pr faults kpi_fetch =
      ({ errors := [],
         warnings :=
           (advance_status_step s rid status (map_fabric_status pr.status)
             pr.status pr.raw_id faults).1 ++
           (advance_release_step
             (advance_kpi_step
               (advance_status_step s rid status (map_fabric_status pr.status)
                 pr.status pr.raw_id faults).2
               rid (map_fabric_status pr.status) faults kpi_fetch)
             rid (map_fabric_status pr.status) faults).1,
         infos := [],
         successes := ["Status updated: " ++ status ++ " -> " ++
           map_fabric_status pr.status] },
       (advance_release_step
         (advance_kpi_step
           (advance_status_step s rid status (map_fabric_status pr.status)
             pr.status pr.raw_id faults).2
           rid (map_fabric_status pr.status) faults kpi_fetch)
         rid (map_fabric_status pr.status) faults).2) := by
  unfold advance_on_poll
  dsimp only
  rw [if_pos hne]

/-- Branch reduction: when the mapped status equals the stored one, the poll
handler performs no store write and reports unchanged. -/
theorem advance_on_poll_unchanged (s : DBState) (rid : Nat) (status : String)
    (pr : PollResult) (faults : AdvanceFaults)
    (kpi_fetch : Except String (Option String))
    (heq : map_fabric_status pr.status = status) :
    advance_on_poll s rid status pr faults kpi_fetch =
      ({ errors := [], warnings := [],
         infos := ["Status unchanged: " ++ status ++ " (Fabric: " ++ pr.status ++ ")"],
         successes := [] }, s) := by
  have hnn : ¬ map_fabric_status pr.status ≠ status := fun hn => hn heq
  unfold advance_on_poll
  dsimp only
  rw [if_neg hnn]

/-- Branch reduction: the release step on a terminal status with no faults
releases the lock and appends the lock-released LOG event. -/
theorem advance_release_step_ok (s : DBState) (rid : Nat)
    (new_status : String) (faults : AdvanceFaults)
    (hterm : new_status = "SUCCEEDED" ∨ new_status = "FAILED")
    (h1 : faults.lock_release = none) (h2 : faults.release_event = none) :
    advance_release_step s rid new_status faults =
      ([], append_event (release_lock s rid).2 rid "LOG"
        ("Pipeline lock released. Final status: " ++ new_status)) := by
  unfold advance_release_step
  rw [if_pos hterm, h1, h2]

/-- Branch reduction: the release step on a terminal status when the release
raises reports the warning and leaves the state alone. -/
theorem advance_release_step_fault (s : DBState) (rid : Nat)
    (new_status : String) (faults : AdvanceFaults) (m : String)
    (hterm : new_status = "SUCCEEDED" ∨ new_status = "FAILED")
    (h1 : faults.lock_release = some m) :
    advance_release_step s rid new_status faults =
      (["Failed to release lock: " ++ m], s) := by
  unfold advance_release_step
  rw [if_pos hterm, h1]

/-- Claim C4: whenever an Advance poll maps to a terminal status different
from the stored one, the handler releases the run lock for that run id and
appends the lock-released LOG event (when neither statement raises, for any
behaviour of the earlier persist and KPI steps); and when the lock release
raises, the failure is reported as a warning while the caller still gets the
successful transition report and no error. -/
theorem c4_terminal_transition_releases_lock (s : DBState) (rid : Nat)
    (status : String) (pr : PollResult) (faults : AdvanceFaults)
    (kpi_fetch : Except String (Option String))
    (hterm : map_fabric_status pr.status = "SUCCEEDED" ∨
             map_fabric_status pr.status = "FAILED")
    (hne : map_fabric_status pr.status ≠ status) :
    (faults.lock_release = none → faults.release_event = none →
      ((advance_on_poll s rid status pr faults kpi_fetch).2.lock.run_id ≠ some rid ∧
       ∃ ev : EventRow,
         (advance_on_poll s rid status pr faults kpi_fetch).2.events.getLast? =
           some ev ∧
         ev.run_id = rid ∧ ev.event_type = "LOG" ∧
         ev.message = "Pipeline lock released. Final status: " ++
           map_fabric_status pr.status)) ∧
    (∀ m, faults.lock_release = some m →
      ("Failed to release lock: " ++ m) ∈
        (advance_on_poll s rid status pr faults kpi_fetch).1.warnings ∧
      (advance_on_poll s rid status pr faults kpi_fetch).1.errors = [] ∧
      (advance_on_poll s rid status pr faults kpi_fetch).1.successes =
        ["Status updated: " ++ status ++ " -> " ++ map_fabric_status pr.status]) := by
  constructor
  · intro h1 h2
    rw [advance_on_poll_changed s rid status pr faults kpi_fetch hne,
        advance_release_step_ok _ rid _ faults hterm h1 h2]
    constructor
    · simpa using release_lock_not_holder _ rid
    · simp only [append_event_events]
      exact ⟨_, getLast?_append_singleton _ _, rfl, rfl, rfl⟩
  · intro m h1
    rw [advance_on_poll_changed s rid status pr faults kpi_fetch hne,
        advance_release_step_fault _ rid _ faults m hterm h1]
    refine ⟨?_, rfl, rfl⟩
    simp

/-- A state whose lock is held by run id 7, for the C4 witness. -/
def c4_state : DBState :=
  { runs := [], events := [], restores := [],
    lock := { run_id := some 7, locked_at := some 0, locked_by := some "alice" },
    clock := 4 }

/-- Witness for C4 at a concrete Completed poll on a RUNNING run: after the
handler, run 7 no longer holds the lock. -/
theorem c4_terminal_transition_releases_lock_witness :
    (advance_on_poll c4_state 7 "RUNNING"
      { http_status := 200, status := "Completed", raw_id := none, error := none }
      noFaults (Except.ok none)).2.lock.run_id ≠ some 7 :=
  ((c4_terminal_transition_releases_lock c4_state 7 "RUNNING"
      { http_status := 200, status := "Completed", raw_id := none, error := none }
      noFaults (Except.ok none) (Or.inl (by decide)) (by decide)).1 rfl rfl).1

/-- Claim C5: when Admit acquires the lock (the row was free) and the job
submission then fails, no run row is persisted, no event is appended, the
submission error is surfaced to the caller, the lock is released when the
release statement does not itself raise, and even a raising release leaves
the caller with the same surfaced submission error. -/
theorem c5_admit_submit_failure (s : DBState) (rid : Nat)
    (user file ws pl : String) (ver : Option String) (e : String)
    (faults : AdmitFaults)
    (hfree : s.lock.run_id = none) :
    (admit_run s rid user file ws pl ver (Except.error e) faults).2.runs = s.runs ∧
    (admit_run s rid user file ws pl ver (Except.error e) faults).2.events = s.events ∧
    (admit_run s rid user file ws pl ver (Except.error e) faults).2.restores = s.restores ∧
    (admit_run s rid user file ws pl ver (Except.error e) faults).1.errors =
      ["Pipeline trigger failed: " ++ e] ∧
    (faults.lock_release = none →
      (admit_run s rid user file ws pl ver (Except.error e) faults).2.lock.run_id = none) := by
  rcases hfl : faults.lock_release with _ | m <;>
    simp [admit_run, acquire_lock, hfree, hfl, release_lock]

/-- Witness for C5 at a concrete free-lock state and failing submission:
the store keeps no run row, the error is surfaced, and the lock ends free. -/
theorem c5_admit_submit_failure_witness :
    (admit_run lockFreeState 5 "alice" "orders.csv" "ws1" "pl1" none
      (Except.error "boom") noAdmitFaults).2.runs = lockFreeState.runs ∧
    (admit_run lockFreeState 5 "alice" "orders.csv" "ws1" "pl1" none
      (Except.error "boom") noAdmitFaults).1.errors =
      ["Pipeline trigger failed: " ++ "boom"] ∧
    (admit_run lockFreeState 5 "alice" "orders.csv" "ws1" "pl1" none
      (Except.error "boom") noAdmitFaults).2.lock.run_id = none := by
  have h := c5_admit_submit_failure lockFreeState 5 "alice" "orders.csv"
    "ws1" "pl1" none "boom" noAdmitFaults rfl
  exact ⟨h.1, h.2.2.2.1, h.2.2.2.2 rfl⟩

/-- Claim C8: an Advance whose mapped external status equals the stored one
performs no store write at all - the returned state is the input state, so
runs, events, restores and lock are unchanged - the caller is told the
status is unchanged, and a second consecutive Advance under the same
external answer is again a no-op on the store. -/
theorem c8_unchanged_advance_writes_nothing (s : DBState) (rid : Nat)
    (status location_url : String) (resp : Except String HttpResp)
    (faults : AdvanceFaults) (kpi_fetch : Except String (Option String))
    (pr : PollResult)
    (hurl : location_url ≠ "")
    (hp : poll_job_status location_url resp = Except.ok pr)
    (heq : map_fabric_status pr.status = status) :
    (advance_run s rid status location_url resp faults kpi_fetch).2 = s ∧
    (advance_run s rid status location_url resp faults kpi_fetch).1.infos =
      ["Status unchanged: " ++ status ++ " (Fabric: " ++ pr.status ++ ")"] ∧
    (advance_run (advance_run s rid status location_url resp faults kpi_fetch).2
      rid status location_url resp faults kpi_fetch).2 = s := by
  have hred : ∀ t : DBState,
      advance_run t rid status location_url resp faults kpi_fetch =
        ({ errors := [], warnings := [],
           infos := ["Status unchanged: " ++ status ++ " (Fabric: " ++ pr.status ++ ")"],
           successes := [] }, t) := by
    intro t
    unfold advance_run
    rw [if_neg hurl, hp]
    exact advance_on_poll_unchanged t rid status pr faults kpi_fetch heq
  refine ⟨?_, ?_, ?_⟩
  · rw [hred s]
  · rw [hred s]
  · rw [hred s, hred s]

/-- A state with an active RUNNING run holding the lock, for the C8
witness. -/
def c8_state : DBState :=
  { runs := [], events := [], restores := [],
    lock := { run_id := some 7, locked_at := some 0, locked_by := some "alice" },
    clock := 5 }

/-- Witness for C8 at a concrete 202 still-in-progress poll of a RUNNING
run: the store state is returned untouched. -/
theorem c8_unchanged_advance_writes_nothing_witness :
    (advance_run c8_state 7 "RUNNING" "https://fabric/poll/7"
      (Except.ok { status_code := 202, body := JsonBody.invalid, text := "" })
      noFaults (Except.ok none)).2 = c8_state :=
  (c8_unchanged_advance_writes_nothing c8_state 7 "RUNNING" "https://fabric/poll/7"
    (Except.ok { status_code := 202, body := JsonBody.invalid, text := "" })
    noFaults (Except.ok none)
    { http_status := 202, status := "InProgress", raw_id := none, error := none }
    (by decide) rfl rfl).1

/-- Claim C9: when the restore submission fails (and the best-effort audit
statements themselves succeed), a restore record with an empty target run id
is still inserted, a WARNING event is appended to the source run, the error
is surfaced, and no run row is touched. -/
theorem c9_restore_submit_failure_audited (s : DBState) (src : Nat)
    (user : String) (target : Nat) (e : String) (faults : RestoreFaults)
    (h1 : faults.insert_fallback = none) (h2 : faults.warning_event = none) :
    (restore_run s src user target (Except.error e) faults).2.restores =
      s.restores ++ [{ id := s.clock, restored_at := s.clock,
                       restored_by := user, source_run_id := src,
                       target_run_id := none }] ∧
    (restore_run s src user target (Except.error e) faults).2.events =
      s.events ++ [{ id := s.clock + 1, run_id := src,
                     event_time := s.clock + 1, event_type := "WARNING",
                     message := "Restore requested by " ++ user ++
                       " but pipeline trigger failed: " ++ e ++
                       ". Restore ID: " ++ toString s.clock }] ∧
    (restore_run s src user target (Except.error e) faults).1.errors =
      ["Restore failed: " ++ e] ∧
    (restore_run s src user target (Except.error e) faults).2.runs = s.runs := by
  simp [restore_run, restore_attempt, restore_fallback, h1, h2]

/-- Witness for C9 at a concrete failing submission on an empty store. -/
theorem c9_restore_submit_failure_audited_witness :
    (restore_run lockFreeState 3 "carol" 8 (Except.error "denied")
      noRestoreFaults).1.errors = ["Restore failed: " ++ "denied"] :=
  (c9_restore_submit_failure_audited lockFreeState 3 "carol" 8 "denied"
    noRestoreFaults rfl rfl).2.2.1

/-- The fault configuration of the C10 scenario: the submission and both
restore-record inserts succeed, the LOG event append raises, and the
fallback WARNING append succeeds. -/
def c10_faults : RestoreFaults :=
  { insert_with_target := none, log_event := some "db connection reset",
    insert_fallback := none, warning_event := none }

/-- Claim C10: when the submission and the first restore-record insert both
succeed but the following LOG event append raises, the except branch inserts
a second restore record with no target for the same source run - one restore
attempt yields two restore records - and the appended WARNING event blames a
pipeline trigger failure even though the trigger succeeded. -/
theorem c10_double_restore_record (s : DBState) (src : Nat) (user : String)
    (target : Nat) (loc : String) (m : String) (faults : RestoreFaults)
    (h1 : faults.insert_with_target = none) (h2 : faults.log_event = some m)
    (h3 : faults.insert_fallback = none) (h4 : faults.warning_event = none) :
    (restore_run s src user target (Except.ok { location_url := loc })
      faults).2.restores =
      s.restores ++
        [{ id := s.clock, restored_at := s.clock, restored_by := user,
           source_run_id := src, target_run_id := some target },
         { id := s.clock + 1, restored_at := s.clock + 1, restored_by := user,
           source_run_id := src, target_run_id := none }] ∧
    (restore_run s src user target (Except.ok { location_url := loc })
      faults).2.restores.length = s.restores.length + 2 ∧
    (restore_run s src user target (Except.ok { location_url := loc })
      faults).2.events =
      s.events ++ [{ id := s.clock + 2, run_id := src,
                     event_time := s.clock + 2, event_type := "WARNING",
                     message := "Restore requested by " ++ user ++
                       " but pipeline trigger failed: " ++ m ++
                       ". Restore ID: " ++ toString (s.clock + 1) }] ∧
    (restore_run s src user target (Except.ok { location_url := loc })
      faults).1.errors = ["Restore failed: " ++ m] := by
  simp [restore_run, restore_attempt, restore_fallback, h1, h2, h3, h4]

/-- Witness for C10 at a concrete store: the single restore attempt leaves
two restore records. -/
theorem c10_double_restore_record_witness :
    (restore_run lockFreeState 3 "carol" 8 (Except.ok { location_url := "loc" })
      c10_faults).2.restores.length = lockFreeState.restores.length + 2 :=
  (c10_double_restore_record lockFreeState 3 "carol" 8 "loc"
    "db connection reset" c10_faults rfl rfl rfl rfl).2.1
